import Mathlib

/-!
Verification of the model lifecycle manager of the ProactEd repository:
the ensemble-weight computation of `AdvancedModelPipeline.create_ensemble_model`
(src/enhanced_ml_pipeline.py) and the retraining pipeline of
`AutoModelRetrainer` (src/auto_retrain.py): `check_retraining_criteria`,
`_get_last_training_date`, `_count_new_data_points`, `_evaluate_current_model`
and `retrain_model`.

Python floats are embedded as rationals (ℚ); datetimes as integer day numbers;
I/O actions that may raise are passed in as explicit `IOResult` values; file
system effects are tracked explicitly (a trace of file operations for the
criteria check, a small file-system record for the promotion sequence).
-/

namespace ProactEd

/-! ## Ensemble composer (src/enhanced_ml_pipeline.py, create_ensemble_model)

The source computes
  total_cv_score = sum(perf.cv_mean for perf in model_performance.values())
  ensemble_weights[name] = perf.cv_mean / total_cv_score
with no filtering of non-positive scores and no fallback.  When the total is
zero, Python float division of the numpy scalars yields non-finite weights
(inf / -inf / NaN); we model that outcome as `none`, and a finite weight
vector as `some`. -/
def create_ensemble_model (cvMeans : List ℚ) : Option (List ℚ) :=
  let total := cvMeans.sum
  if total = 0 then none
  else some (cvMeans.map (fun c => c / total))

/-- Sum of a list divided elementwise equals the sum divided. -/
theorem sum_map_div (l : List ℚ) (t : ℚ) :
    (l.map (fun c => c / t)).sum = l.sum / t := by
  induction l with
  | nil => simp
  | cons a l ih => simp [ih, add_div]

/-! ## Criteria evaluator (src/auto_retrain.py, check_retraining_criteria)

An `IOResult` is the outcome of an underlying I/O action: `ok v` when the
Python call returns `v`, `err` when it raises. -/
inductive IOResult (α : Type) where
  | ok : α → IOResult α
  | err : IOResult α
deriving DecidableEq

/-- Reason strings appended to `criteria['reasons']`, tagged by their format
string; the payload is the value interpolated into the message. -/
inductive Reason where
  | noRecord : Reason
  | scheduled : ℤ → Reason
  | newData : ℕ → Reason
  | degraded : ℚ → Reason
  | criteriaError : Reason
deriving DecidableEq

/-- The `criteria` dictionary built by `check_retraining_criteria`. -/
structure Criteria where
  needs_retraining : Bool
  reasons : List Reason
  new_data_points : ℕ
  days_since_last_training : ℤ
  current_performance : Option ℚ
deriving DecidableEq

/-- A file-system mutation performed during the criteria check. -/
inductive FileOp where
  | createFile : String → FileOp
  | deleteFile : String → FileOp
deriving DecidableEq

def tempEvalFile : String := "temp_eval_data.csv"

/-- Environment of `_evaluate_current_model`: whether the production pickle
exists, whether unpickling and key access succeed, whether the database export
`export_data_for_ml('temp_eval_data.csv')` completes (it raises before writing
the CSV when its SQL query fails, and writes the CSV just before returning),
whether the exported table is empty, whether it has the target column, and the
outcome of predict-and-score. -/
structure EvalEnv where
  modelExists : Bool
  loadOk : Bool
  exportOk : Bool
  dataEmpty : Bool
  targetPresent : Bool
  score : IOResult ℚ
deriving DecidableEq

/-- `_evaluate_current_model` (src/auto_retrain.py lines 116-155): returns the
R² of the production model on freshly exported data, or `None`; every failure
is caught internally.  The temp CSV is removed only on the fully successful
path (lines 148-149); the early `return None` at line 133 and the exception
handler at line 153 leave it on disk. -/
def evaluate_current_model (e : EvalEnv) : Option ℚ × List FileOp :=
  if !e.modelExists then (none, [])
  else if !e.loadOk then (none, [])
  else if !e.exportOk then (none, [])
  else if e.dataEmpty || !e.targetPresent then (none, [FileOp.createFile tempEvalFile])
  else
    match e.score with
    | IOResult.err => (none, [FileOp.createFile tempEvalFile])
    | IOResult.ok r =>
        (some r, [FileOp.createFile tempEvalFile, FileOp.deleteFile tempEvalFile])

/-- Environment of `check_retraining_criteria`: the parsed training log
(`ok none` = log file absent, `ok (some d)` = last training on day `d`,
`err` = the read or parse raised), today's day number, the outcome of
`len(self.db.get_equipment_data())` (uncaught when it raises), the outcome of
the SQLite count query (caught locally), and the evaluation environment. -/
structure CriteriaEnv where
  logRead : IOResult (Option ℤ)
  nowDay : ℤ
  allDataCount : IOResult ℕ
  newRowsQuery : IOResult ℕ
  evalEnv : EvalEnv
deriving DecidableEq

/-- `_get_last_training_date` (lines 84-94): a bare `except` turns any read or
parse error into `None`, indistinguishable from a missing log file. -/
def get_last_training_date (r : IOResult (Option ℤ)) : Option ℤ :=
  match r with
  | IOResult.ok d => d
  | IOResult.err => none

/-- `_count_new_data_points` (lines 96-114): with no previous date it counts
the whole table with no local handler (an error propagates); with a date, the
count query's errors are caught locally and become 0. -/
def count_new_data_points (last : Option ℤ) (allCount : IOResult ℕ)
    (query : IOResult ℕ) : IOResult ℕ :=
  match last with
  | none => allCount
  | some _ =>
      match query with
      | IOResult.ok n => IOResult.ok n
      | IOResult.err => IOResult.ok 0

def performance_threshold : ℚ := 4/5
def min_new_data_points : ℕ := 100
def retraining_schedule_days : ℤ := 7

/-- `check_retraining_criteria` (lines 34-82), paired with the trace of file
operations it performs.  The degradation test mirrors the Python truthiness
check `if current_performance and current_performance < threshold`: a `None`
or `0.0` performance never marks degradation.  An exception escaping
`_count_new_data_points` reaches the outer handler (lines 78-82), which flags
retraining with an error reason and returns the criteria built so far. -/
def check_retraining_criteria (env : CriteriaEnv) : Criteria × List FileOp :=
  let c0 : Criteria :=
    { needs_retraining := false, reasons := [], new_data_points := 0,
      days_since_last_training := 0, current_performance := none }
  let last := get_last_training_date env.logRead
  let c1 :=
    match last with
    | some d =>
        let days := env.nowDay - d
        let c := { c0 with days_since_last_training := days }
        if retraining_schedule_days ≤ days then
          { c with needs_retraining := true,
                   reasons := c.reasons ++ [Reason.scheduled days] }
        else c
    | none =>
        { c0 with needs_retraining := true,
                  reasons := c0.reasons ++ [Reason.noRecord] }
  match count_new_data_points last env.allDataCount env.newRowsQuery with
  | IOResult.err =>
      ({ c1 with needs_retraining := true,
                 reasons := c1.reasons ++ [Reason.criteriaError] }, [])
  | IOResult.ok n =>
      let c2 := { c1 with new_data_points := n }
      let c3 :=
        if min_new_data_points ≤ n then
          { c2 with needs_retraining := true,
                    reasons := c2.reasons ++ [Reason.newData n] }
        else c2
      let res := evaluate_current_model env.evalEnv
      let c4 := { c3 with current_performance := res.1 }
      let c5 :=
        match res.1 with
        | some p =>
            if p ≠ 0 ∧ p < performance_threshold then
              { c4 with needs_retraining := true,
                        reasons := c4.reasons ++ [Reason.degraded p] }
            else c4
        | none => c4
      (c5, res.2)

/-! ## Promotion manager (src/auto_retrain.py, retrain_model) -/

/-- Status field of a retraining report; `_generate_retraining_report`
(lines 339-356) only ever writes `completed_successfully`. -/
inductive ReportStatus where
  | completed_successfully : ReportStatus
  | rejected : ReportStatus
  | no_data : ReportStatus
deriving DecidableEq

/-- The parts of the file system `retrain_model` touches: the content at the
fixed production path `complete_equipment_failure_prediction_system.pkl`
(`none` = no file), the timestamped `model_backup_*.pkl` created this run, the
`retrained_model_*.pkl` candidate file, and the status of any
`retraining_report_*.json` written this run.  File contents are abstract
identifiers. -/
structure FS where
  prod : Option ℕ
  backup : Option ℕ
  candidateFile : Option ℕ
  reportStatus : Option ReportStatus
deriving DecidableEq

/-- Environment of one `retrain_model` run: whether any data source yielded
rows (database export or CSV fallback), whether the resolved table has the
target column, whether training itself raises before the candidate pickle is
written, the result of `self._evaluate_current_model()` at line 297, the
candidate's held-out `test_r2`, and whether the final
`os.rename(retrained_filename, production_path)` at line 306 raises. -/
structure RetrainEnv where
  dataNonEmpty : Bool
  targetPresent : Bool
  trainRaises : Bool
  currentR2 : Option ℚ
  testR2 : ℚ
  finalRenameFails : Bool
deriving DecidableEq

/-- Content identifier of the freshly trained candidate pickle; distinct from
any pre-existing production content in the theorems that need freshness. -/
def newCandidateId : ℕ := 1

/-- The promotion decision at line 298:
`if current_performance is None or test_r2 > current_performance`. -/
def promoteDecision (current : Option ℚ) (newR2 : ℚ) : Bool :=
  match current with
  | none => true
  | some c => decide (c < newR2)

/-- `retrain_model` (lines 211-325) as a state transformer on `FS`, returning
the Python boolean result and the final file-system state.  On promotion the
existing production file (if any) is renamed to the backup name (lines
300-303) and the candidate is renamed onto the production path (line 306); an
exception there propagates to the outer handler (lines 323-325), which only
logs and returns `False` — no restore of the backup happens.  The training
log and report are written after the promotion block in both branches. -/
def retrain_model (env : RetrainEnv) (fs0 : FS) : Bool × FS :=
  if !env.dataNonEmpty then (false, fs0)
  else if !env.targetPresent then (false, fs0)
  else if env.trainRaises then (false, fs0)
  else
    let fs1 := { fs0 with candidateFile := some newCandidateId }
    if promoteDecision env.currentR2 env.testR2 then
      let fs2 :=
        match fs1.prod with
        | some c => { fs1 with prod := none, backup := some c }
        | none => fs1
      if env.finalRenameFails then
        (false, fs2)
      else
        (true, { fs2 with prod := some newCandidateId, candidateFile := none,
                          reportStatus := some ReportStatus.completed_successfully })
    else
      (true, { fs1 with reportStatus := some ReportStatus.completed_successfully })

/-- The promotion decision holds exactly when there is no current score or the
candidate's score strictly exceeds it. -/
theorem promoteDecision_eq_true (cur : Option ℚ) (r : ℚ) :
    promoteDecision cur r = true ↔ (cur = none ∨ ∃ c, cur = some c ∧ c < r) := by
  cases cur with
  | none => simp [promoteDecision]
  | some c => simp [promoteDecision]

/-! ## Claims C3 and C4: ensemble weights -/

/-- C3 (counterexample): with candidate cv-means [-1, -3], every candidate has
a non-positive score, so the claim demands weight 0 for each and a uniform
fallback of 1/2; the code instead normalizes over the raw total and yields
weights [1/4, 3/4], which are neither 0 nor uniform. -/
theorem C3_counterexample :
    create_ensemble_model [-1, -3] = some [1/4, 3/4] ∧
    (1 : ℚ)/4 ≠ 0 ∧ (1 : ℚ)/4 ≠ 1/2 ∧ (3 : ℚ)/4 ≠ 0 := by
  refine ⟨by norm_num [create_ensemble_model], by norm_num, by norm_num, by norm_num⟩

/-- C3 (amended): the composer excludes no candidate and has no uniform
fallback; each candidate's weight is its cv-mean divided by the total over all
candidates.  The weight vector is non-finite (modelled as `none`) exactly when
the total is zero, and otherwise it sums to 1. -/
theorem C3_amended_thm (cvMeans : List ℚ) :
    (create_ensemble_model cvMeans = none ↔ cvMeans.sum = 0) ∧
    (∀ ws, create_ensemble_model cvMeans = some ws →
      ws = cvMeans.map (fun c => c / cvMeans.sum) ∧ ws.sum = 1) := by
  by_cases h : cvMeans.sum = 0
  · refine ⟨by simp [create_ensemble_model, h], ?_⟩
    intro ws hws
    simp [create_ensemble_model, h] at hws
  · refine ⟨by simp [create_ensemble_model, h], ?_⟩
    intro ws hws
    simp only [create_ensemble_model, if_neg h, Option.some.injEq] at hws
    refine ⟨hws.symm, ?_⟩
    rw [← hws, sum_map_div, div_self h]

/-- C3 (witness): the amended theorem applied at cv-means [-1, -3]. -/
theorem C3_amended_witness :
    ([(-1 : ℚ), -3].sum ≠ 0) ∧
    (∀ ws, create_ensemble_model [(-1 : ℚ), -3] = some ws → ws.sum = 1) :=
  ⟨by norm_num, fun ws hws => ((C3_amended_thm [(-1 : ℚ), -3]).2 ws hws).2⟩

/-- C4 (counterexample): with cv-means [1, -1] at least one candidate has a
strictly positive score, yet the total is 0, so the code's division produces a
non-finite weight vector (`none`); no weights summing to 1 exist. -/
theorem C4_counterexample :
    ((0 : ℚ) < 1 ∧ (1 : ℚ) ∈ [(1 : ℚ), -1]) ∧
    create_ensemble_model [(1 : ℚ), -1] = none := by
  refine ⟨⟨by norm_num, by norm_num⟩, by norm_num [create_ensemble_model]⟩

/-- C4 (amended): the ensemble weights sum to 1.0 whenever the total of all
candidates' cv-means is nonzero (a strictly positive candidate alone does not
suffice, since negative scores can cancel the total). -/
theorem C4_amended_thm (cvMeans : List ℚ) (h : cvMeans.sum ≠ 0) :
    ∃ ws, create_ensemble_model cvMeans = some ws ∧ ws.sum = 1 := by
  refine ⟨cvMeans.map (fun c => c / cvMeans.sum), ?_, ?_⟩
  · simp [create_ensemble_model, h]
  · rw [sum_map_div, div_self h]

/-- C4 (witness): the amended theorem at the spec's example cv-means
[0.6, 0.5, 0.7, 0.4]. -/
theorem C4_amended_witness :
    ([(3 : ℚ)/5, 1/2, 7/10, 2/5].sum ≠ 0) ∧
    ∃ ws, create_ensemble_model [(3 : ℚ)/5, 1/2, 7/10, 2/5] = some ws ∧ ws.sum = 1 :=
  ⟨by norm_num, C4_amended_thm [(3 : ℚ)/5, 1/2, 7/10, 2/5] (by norm_num)⟩

/-! ## Claims C1, C5, C6, C9, C10: retrain_model -/

/-- C1 (code bug): when the candidate wins, the production file is renamed to
the backup name, and then the final rename of the candidate onto the
production path fails; the outer exception handler only logs and returns
`False`, so the run ends with the production path holding no file and the
backup never restored — contradicting the required recovery behavior. -/
theorem C1_code_bug :
    retrain_model
      { dataNonEmpty := true, targetPresent := true, trainRaises := false,
        currentR2 := none, testR2 := 1, finalRenameFails := true }
      { prod := some 0, backup := none, candidateFile := none, reportStatus := none }
    = (false, { prod := none, backup := some 0, candidateFile := some newCandidateId,
                reportStatus := none }) := by
  norm_num [retrain_model, promoteDecision]

/-- C5: in a run that trains and whose final rename succeeds, the candidate
ends up at the production path exactly when the current production score is
`None` or the candidate's held-out score strictly exceeds it; otherwise the
pre-existing production content keeps serving. -/
theorem C5_thm (env : RetrainEnv) (fs : FS)
    (hd : env.dataNonEmpty = true) (ht : env.targetPresent = true)
    (htr : env.trainRaises = false) (hf : env.finalRenameFails = false)
    (hfresh : fs.prod ≠ some newCandidateId) :
    ((retrain_model env fs).2.prod = some newCandidateId ↔
      (env.currentR2 = none ∨ ∃ c, env.currentR2 = some c ∧ c < env.testR2)) ∧
    (¬ (env.currentR2 = none ∨ ∃ c, env.currentR2 = some c ∧ c < env.testR2) →
      (retrain_model env fs).2.prod = fs.prod) := by
  rw [← promoteDecision_eq_true env.currentR2 env.testR2]
  by_cases hp : promoteDecision env.currentR2 env.testR2 = true
  · constructor
    · simp only [hp, iff_true]
      cases hfs : fs.prod <;>
        simp [retrain_model, hd, ht, htr, hf, hp, hfs]
    · intro hcon; exact absurd hp hcon
  · constructor
    · simp only [hp, iff_false]
      simp only [retrain_model, hd, ht, htr, Bool.not_true, Bool.false_eq_true,
        if_false, eq_self_iff_true, if_true]
      simp [Bool.not_eq_true] at hp
      simp [hp]
      exact hfresh
    · intro _
      simp [Bool.not_eq_true] at hp
      simp [retrain_model, hd, ht, htr, hp]

/-- C5 (witness): with current production R² 0.78 and candidate R² 0.82, the
candidate is promoted onto the production path. -/
theorem C5_witness :
    (retrain_model
      { dataNonEmpty := true, targetPresent := true, trainRaises := false,
        currentR2 := some (39/50), testR2 := 41/50, finalRenameFails := false }
      { prod := some 0, backup := none, candidateFile := none,
        reportStatus := none }).2.prod = some newCandidateId :=
  (C5_thm
    { dataNonEmpty := true, targetPresent := true, trainRaises := false,
      currentR2 := some (39/50), testR2 := 41/50, finalRenameFails := false }
    { prod := some 0, backup := none, candidateFile := none, reportStatus := none }
    rfl rfl rfl rfl (by simp [newCandidateId])).1.mpr
    (Or.inr ⟨39/50, rfl, by norm_num⟩)

/-- C6: when the run aborts for lack of data, or trains but rejects the
candidate, the production path's content is unchanged and no backup file is
created. -/
theorem C6_thm (env : RetrainEnv) (fs : FS) (hb : fs.backup = none)
    (h : env.dataNonEmpty = false ∨
         (env.dataNonEmpty = true ∧ env.targetPresent = true ∧
          env.trainRaises = false ∧
          promoteDecision env.currentR2 env.testR2 = false)) :
    (retrain_model env fs).2.prod = fs.prod ∧
    (retrain_model env fs).2.backup = none := by
  rcases h with h | ⟨hd, ht, htr, hp⟩
  · simp [retrain_model, h, hb]
  · simp [retrain_model, hd, ht, htr, hp, hb]

/-- C6 (witness): the no-data abort leaves production content 5 in place with
no backup. -/
theorem C6_witness :
    (retrain_model
      { dataNonEmpty := false, targetPresent := true, trainRaises := false,
        currentR2 := none, testR2 := 1, finalRenameFails := false }
      { prod := some 5, backup := none, candidateFile := none,
        reportStatus := none }).2.prod = some 5 ∧
    (retrain_model
      { dataNonEmpty := false, targetPresent := true, trainRaises := false,
        currentR2 := none, testR2 := 1, finalRenameFails := false }
      { prod := some 5, backup := none, candidateFile := none,
        reportStatus := none }).2.backup = none :=
  C6_thm
    { dataNonEmpty := false, targetPresent := true, trainRaises := false,
      currentR2 := none, testR2 := 1, finalRenameFails := false }
    { prod := some 5, backup := none, candidateFile := none, reportStatus := none }
    rfl (Or.inl rfl)

/-- C9 (counterexample): a run that trains but rejects the candidate (current
R² 0.80, candidate R² 0.70) still writes a report with status
`completed_successfully`, not `rejected`; and a run aborting for lack of data
writes no report at all, instead of one with status `no_data`. -/
theorem C9_counterexample :
    ((retrain_model
        { dataNonEmpty := true, targetPresent := true, trainRaises := false,
          currentR2 := some (4/5), testR2 := 7/10, finalRenameFails := false }
        { prod := some 0, backup := none, candidateFile := none,
          reportStatus := none }).2.prod = some 0 ∧
     (retrain_model
        { dataNonEmpty := true, targetPresent := true, trainRaises := false,
          currentR2 := some (4/5), testR2 := 7/10, finalRenameFails := false }
        { prod := some 0, backup := none, candidateFile := none,
          reportStatus := none }).2.reportStatus
       = some ReportStatus.completed_successfully ∧
     ReportStatus.completed_successfully ≠ ReportStatus.rejected) ∧
    (retrain_model
        { dataNonEmpty := false, targetPresent := true, trainRaises := false,
          currentR2 := none, testR2 := 1, finalRenameFails := false }
        { prod := some 0, backup := none, candidateFile := none,
          reportStatus := none }).2.reportStatus = none := by
  refine ⟨⟨?_, ?_, by simp⟩, ?_⟩ <;>
    norm_num [retrain_model, promoteDecision]

/-- C9 (amended): a report is written exactly when the pipeline trains to
completion (whether the candidate is promoted or rejected) and, on promotion,
the final rename succeeds; its status is always `completed_successfully` —
rejected runs are not distinguished, and no-data runs produce no report. -/
theorem C9_amended_thm (env : RetrainEnv) (fs : FS) (hr : fs.reportStatus = none) :
    ((retrain_model env fs).2.reportStatus
        = some ReportStatus.completed_successfully ↔
      (env.dataNonEmpty = true ∧ env.targetPresent = true ∧
       env.trainRaises = false ∧
       (promoteDecision env.currentR2 env.testR2 = true →
         env.finalRenameFails = false))) ∧
    (∀ s, (retrain_model env fs).2.reportStatus = some s →
      s = ReportStatus.completed_successfully) := by
  cases hd : env.dataNonEmpty with
  | false => simp [retrain_model, hd, hr]
  | true =>
    cases ht : env.targetPresent with
    | false => simp [retrain_model, hd, ht, hr]
    | true =>
      cases htr : env.trainRaises with
      | true => simp [retrain_model, hd, ht, htr, hr]
      | false =>
        cases hp : promoteDecision env.currentR2 env.testR2 with
        | false => simp [retrain_model, hd, ht, htr, hp]
        | true =>
          cases hf : env.finalRenameFails with
          | true => cases hfs : fs.prod <;> simp [retrain_model, hd, ht, htr, hp, hf, hfs, hr]
          | false => cases hfs : fs.prod <;> simp [retrain_model, hd, ht, htr, hp, hf, hfs]

/-- C9 (witness): the amended theorem at a concrete rejected run. -/
theorem C9_amended_witness :
    (retrain_model
      { dataNonEmpty := true, targetPresent := true, trainRaises := false,
        currentR2 := some (4/5), testR2 := 7/10, finalRenameFails := false }
      { prod := some 0, backup := none, candidateFile := none,
        reportStatus := none }).2.reportStatus
      = some ReportStatus.completed_successfully :=
  (C9_amended_thm
    { dataNonEmpty := true, targetPresent := true, trainRaises := false,
      currentR2 := some (4/5), testR2 := 7/10, finalRenameFails := false }
    { prod := some 0, backup := none, candidateFile := none, reportStatus := none }
    rfl).1.mpr
    ⟨rfl, rfl, rfl, fun hp => by
      simp [promoteDecision] at hp
      exact absurd hp (by norm_num)⟩

/-- C10: `retrain_model` returns `True` exactly when data was available, the
target column was present, and no exception escaped (training raising, or the
final rename failing during a promotion); promoted and rejected runs are not
distinguished by the boolean. -/
theorem C10_thm (env : RetrainEnv) (fs : FS) :
    (retrain_model env fs).1 = true ↔
      (env.dataNonEmpty = true ∧ env.targetPresent = true ∧
       env.trainRaises = false ∧
       (promoteDecision env.currentR2 env.testR2 = true →
         env.finalRenameFails = false)) := by
  cases hd : env.dataNonEmpty with
  | false => simp [retrain_model, hd]
  | true =>
    cases ht : env.targetPresent with
    | false => simp [retrain_model, hd, ht]
    | true =>
      cases htr : env.trainRaises with
      | true => simp [retrain_model, hd, ht, htr]
      | false =>
        cases hp : promoteDecision env.currentR2 env.testR2 with
        | false => simp [retrain_model, hd, ht, htr, hp]
        | true =>
          cases hf : env.finalRenameFails with
          | true => cases hfs : fs.prod <;> simp [retrain_model, hd, ht, htr, hp, hf, hfs]
          | false => cases hfs : fs.prod <;> simp [retrain_model, hd, ht, htr, hp, hf, hfs]

/-- C10 (witness): a rejected run (current R² 0.80, candidate R² 0.70) still
returns `True`. -/
theorem C10_witness :
    (retrain_model
      { dataNonEmpty := true, targetPresent := true, trainRaises := false,
        currentR2 := some (4/5), testR2 := 7/10, finalRenameFails := false }
      { prod := some 0, backup := none, candidateFile := none,
        reportStatus := none }).1 = true :=
  (C10_thm
    { dataNonEmpty := true, targetPresent := true, trainRaises := false,
      currentR2 := some (4/5), testR2 := 7/10, finalRenameFails := false }
    { prod := some 0, backup := none, candidateFile := none,
      reportStatus := none }).mpr
    ⟨rfl, rfl, rfl, fun hp => by
      simp [promoteDecision] at hp
      exact absurd hp (by norm_num)⟩

/-! ## Claims C2, C7, C8: check_retraining_criteria -/

/-- The evaluation trace is empty, a lone create of the temp CSV, or a create
followed by its delete. -/
theorem evaluate_trace_cases (e : EvalEnv) :
    (evaluate_current_model e).2 = [] ∨
    (evaluate_current_model e).2 = [FileOp.createFile tempEvalFile] ∨
    (evaluate_current_model e).2
      = [FileOp.createFile tempEvalFile, FileOp.deleteFile tempEvalFile] := by
  rcases e with ⟨me, lo, eo, de, tp, sc⟩
  cases me <;> cases lo <;> cases eo <;> cases de <;> cases tp <;> cases sc <;>
    simp [evaluate_current_model]

/-- The criteria check's file-operation trace is empty or exactly the
evaluation's trace. -/
theorem check_trace_eq (env : CriteriaEnv) :
    (check_retraining_criteria env).2 = [] ∨
    (check_retraining_criteria env).2 = (evaluate_current_model env.evalEnv).2 := by
  unfold check_retraining_criteria
  cases hc : count_new_data_points (get_last_training_date env.logRead)
      env.allDataCount env.newRowsQuery with
  | err => left; simp only [hc]
  | ok n => right; simp only [hc]

/-- C2 (counterexample): with a 3-day-old log, no new rows, and the production
model file missing, the claim demands that the evaluation failure be marked as
performance degradation (contributing to needs_retraining); the code instead
records `current_performance = None`, adds no reason, and leaves
`needs_retraining` false. -/
theorem C2_counterexample :
    (check_retraining_criteria
      { logRead := IOResult.ok (some 0), nowDay := 3, allDataCount := IOResult.ok 0,
        newRowsQuery := IOResult.ok 0,
        evalEnv := { modelExists := false, loadOk := true, exportOk := true,
                     dataEmpty := false, targetPresent := true,
                     score := IOResult.ok 0 } }).1
    = { needs_retraining := false, reasons := [], new_data_points := 0,
        days_since_last_training := 3, current_performance := none } := by
  norm_num [check_retraining_criteria, get_last_training_date,
    count_new_data_points, evaluate_current_model, retraining_schedule_days,
    min_new_data_points, performance_threshold]

/-- C2 (amended): in any run where the data-point count succeeds, a
performance-degradation reason is recorded exactly when the evaluation of the
current model succeeds with a truthy (nonzero) R² strictly below the 0.80
threshold; an evaluation failure yields `None` and marks nothing
(fail-closed, not fail-open), and a score of exactly 0.0 is skipped by the
Python truthiness test. -/
theorem C2_amended_thm (env : CriteriaEnv) (n : ℕ)
    (hn : count_new_data_points (get_last_training_date env.logRead)
            env.allDataCount env.newRowsQuery = IOResult.ok n) :
    ((∃ p, Reason.degraded p ∈ (check_retraining_criteria env).1.reasons) ↔
      ∃ p, (evaluate_current_model env.evalEnv).1 = some p ∧
        p ≠ 0 ∧ p < performance_threshold) := by
  unfold check_retraining_criteria
  simp only [hn]
  rcases hev : evaluate_current_model env.evalEnv with ⟨perf, ops⟩
  simp only [hev]
  cases hlast : get_last_training_date env.logRead with
  | none =>
      by_cases hm : min_new_data_points ≤ n <;>
        (cases perf with
          | none => simp [*]
          | some q =>
              by_cases hq : ¬q = 0 ∧ q < performance_threshold <;> simp [*])
  | some d =>
      by_cases hs : retraining_schedule_days ≤ env.nowDay - d <;>
        by_cases hm : min_new_data_points ≤ n <;>
          (cases perf with
            | none => simp [*]
            | some q =>
                by_cases hq : ¬q = 0 ∧ q < performance_threshold <;> simp [*])

/-- C2 (witness): the amended theorem at a run whose evaluation succeeds with
R² 0.5 < 0.80: the degradation reason is recorded. -/
theorem C2_amended_witness :
    ∃ p, Reason.degraded p ∈ (check_retraining_criteria
      { logRead := IOResult.ok (some 0), nowDay := 3, allDataCount := IOResult.ok 0,
        newRowsQuery := IOResult.ok 0,
        evalEnv := { modelExists := true, loadOk := true, exportOk := true,
                     dataEmpty := false, targetPresent := true,
                     score := IOResult.ok (1/2) } }).1.reasons :=
  (C2_amended_thm
    { logRead := IOResult.ok (some 0), nowDay := 3, allDataCount := IOResult.ok 0,
      newRowsQuery := IOResult.ok 0,
      evalEnv := { modelExists := true, loadOk := true, exportOk := true,
                   dataEmpty := false, targetPresent := true,
                   score := IOResult.ok (1/2) } } 0 (by rfl)).mpr
    ⟨1/2, by norm_num [evaluate_current_model], by norm_num,
      by norm_num [performance_threshold]⟩

/-- C7 (counterexample): with a 3-day-old log, a row-count query that raises,
and a healthy current model (R² 0.85), the claim demands needs_retraining be
set with a reason; the code instead swallows the error into a count of 0 and
returns needs_retraining false with no reasons. -/
theorem C7_counterexample :
    (check_retraining_criteria
      { logRead := IOResult.ok (some 0), nowDay := 3, allDataCount := IOResult.ok 0,
        newRowsQuery := IOResult.err,
        evalEnv := { modelExists := true, loadOk := true, exportOk := true,
                     dataEmpty := false, targetPresent := true,
                     score := IOResult.ok (17/20) } }).1.needs_retraining = false ∧
    (check_retraining_criteria
      { logRead := IOResult.ok (some 0), nowDay := 3, allDataCount := IOResult.ok 0,
        newRowsQuery := IOResult.err,
        evalEnv := { modelExists := true, loadOk := true, exportOk := true,
                     dataEmpty := false, targetPresent := true,
                     score := IOResult.ok (17/20) } }).1.reasons = [] := by
  constructor <;>
    norm_num [check_retraining_criteria, get_last_training_date,
      count_new_data_points, evaluate_current_model, retraining_schedule_days,
      min_new_data_points, performance_threshold]

/-- C7 (amended): errors reading the log or counting rows never escape the
criteria check (the embedding is a total function); a log-read error is folded
into "no previous training record", which does set needs_retraining with that
reason; but a row-count query error is folded into a count of zero new data
points — it records no error reason and does not by itself trigger
retraining. -/
theorem C7_amended_thm (env : CriteriaEnv) :
    (env.logRead = IOResult.err →
      (check_retraining_criteria env).1.needs_retraining = true ∧
      Reason.noRecord ∈ (check_retraining_criteria env).1.reasons) ∧
    (∀ d, env.logRead = IOResult.ok (some d) → env.newRowsQuery = IOResult.err →
      (check_retraining_criteria env).1.new_data_points = 0 ∧
      Reason.criteriaError ∉ (check_retraining_criteria env).1.reasons) := by
  constructor
  · intro hlog
    have hlast : get_last_training_date env.logRead = none := by
      rw [hlog]; rfl
    unfold check_retraining_criteria
    simp only [hlast]
    rcases hev : evaluate_current_model env.evalEnv with ⟨perf, ops⟩
    simp only [hev]
    cases hc : count_new_data_points none env.allDataCount env.newRowsQuery with
    | err => simp [*]
    | ok m =>
        by_cases hm : min_new_data_points ≤ m <;>
          (cases perf with
            | none => simp [*]
            | some q =>
                by_cases hq : ¬q = 0 ∧ q < performance_threshold <;> simp [*])
  · intro d hlog hq
    have hlast : get_last_training_date env.logRead = some d := by
      rw [hlog]; rfl
    have hcount : count_new_data_points (some d) env.allDataCount env.newRowsQuery
        = IOResult.ok 0 := by
      simp [count_new_data_points, hq]
    unfold check_retraining_criteria
    simp only [hlast, hcount]
    rcases hev : evaluate_current_model env.evalEnv with ⟨perf, ops⟩
    simp only [hev]
    have hm : ¬ (min_new_data_points ≤ (0 : ℕ)) := by
      norm_num [min_new_data_points]
    by_cases hs : retraining_schedule_days ≤ env.nowDay - d <;>
      (cases perf with
        | none => simp [*]
        | some q =>
            by_cases hqd : ¬q = 0 ∧ q < performance_threshold <;> simp [*])

/-- C7 (witness): the amended theorem's two parts at concrete runs — a failed
log read sets needs_retraining, and a failed row count yields zero new data
points with no error reason. -/
theorem C7_amended_witness :
    ((check_retraining_criteria
      { logRead := IOResult.err, nowDay := 3, allDataCount := IOResult.ok 0,
        newRowsQuery := IOResult.ok 0,
        evalEnv := { modelExists := false, loadOk := true, exportOk := true,
                     dataEmpty := false, targetPresent := true,
                     score := IOResult.ok 0 } }).1.needs_retraining = true ∧
     Reason.noRecord ∈ (check_retraining_criteria
      { logRead := IOResult.err, nowDay := 3, allDataCount := IOResult.ok 0,
        newRowsQuery := IOResult.ok 0,
        evalEnv := { modelExists := false, loadOk := true, exportOk := true,
                     dataEmpty := false, targetPresent := true,
                     score := IOResult.ok 0 } }).1.reasons) ∧
    ((check_retraining_criteria
      { logRead := IOResult.ok (some 0), nowDay := 3, allDataCount := IOResult.ok 0,
        newRowsQuery := IOResult.err,
        evalEnv := { modelExists := false, loadOk := true, exportOk := true,
                     dataEmpty := false, targetPresent := true,
                     score := IOResult.ok 0 } }).1.new_data_points = 0 ∧
     Reason.criteriaError ∉ (check_retraining_criteria
      { logRead := IOResult.ok (some 0), nowDay := 3, allDataCount := IOResult.ok 0,
        newRowsQuery := IOResult.err,
        evalEnv := { modelExists := false, loadOk := true, exportOk := true,
                     dataEmpty := false, targetPresent := true,
                     score := IOResult.ok 0 } }).1.reasons) :=
  ⟨(C7_amended_thm
      { logRead := IOResult.err, nowDay := 3, allDataCount := IOResult.ok 0,
        newRowsQuery := IOResult.ok 0,
        evalEnv := { modelExists := false, loadOk := true, exportOk := true,
                     dataEmpty := false, targetPresent := true,
                     score := IOResult.ok 0 } }).1 rfl,
   (C7_amended_thm
      { logRead := IOResult.ok (some 0), nowDay := 3, allDataCount := IOResult.ok 0,
        newRowsQuery := IOResult.err,
        evalEnv := { modelExists := false, loadOk := true, exportOk := true,
                     dataEmpty := false, targetPresent := true,
                     score := IOResult.ok 0 } }).2 0 rfl rfl⟩

/-- C8 (counterexample): with the production model present, its load and the
data export succeeding, but the exported table empty, the criteria check
creates `temp_eval_data.csv` and never deletes it — the invocation is not
read-only, and even leaves a new file behind. -/
theorem C8_counterexample :
    (check_retraining_criteria
      { logRead := IOResult.ok (some 0), nowDay := 3, allDataCount := IOResult.ok 0,
        newRowsQuery := IOResult.ok 0,
        evalEnv := { modelExists := true, loadOk := true, exportOk := true,
                     dataEmpty := true, targetPresent := true,
                     score := IOResult.ok 0 } }).2
      = [FileOp.createFile tempEvalFile] ∧
    FileOp.deleteFile tempEvalFile ∉ (check_retraining_criteria
      { logRead := IOResult.ok (some 0), nowDay := 3, allDataCount := IOResult.ok 0,
        newRowsQuery := IOResult.ok 0,
        evalEnv := { modelExists := true, loadOk := true, exportOk := true,
                     dataEmpty := true, targetPresent := true,
                     score := IOResult.ok 0 } }).2 := by
  refine ⟨?_, ?_⟩ <;>
      norm_num [check_retraining_criteria, get_last_training_date,
        count_new_data_points, evaluate_current_model, retraining_schedule_days,
        min_new_data_points, performance_threshold, tempEvalFile]
  decide

/-- C8 (amended): the criteria check touches no file other than the temporary
evaluation CSV: its trace is empty, a lone create of `temp_eval_data.csv`
(left behind when evaluation aborts after the export), or that create followed
by its delete on the fully successful evaluation path. -/
theorem C8_amended_thm (env : CriteriaEnv) :
    (check_retraining_criteria env).2 = [] ∨
    (check_retraining_criteria env).2 = [FileOp.createFile tempEvalFile] ∨
    (check_retraining_criteria env).2
      = [FileOp.createFile tempEvalFile, FileOp.deleteFile tempEvalFile] := by
  rcases check_trace_eq env with h | h
  · exact Or.inl h
  · rw [h]; exact evaluate_trace_cases env.evalEnv

end ProactEd
